import Mathlib

/-!
# Verification of `create_mcp_server`

A shallow embedding, in Lean 4, of the decision logic of
`src/create_mcp_server/__init__.py`: project-name validation
(`check_package_name`), the `uv` version gate (`check_uv_version`),
Claude-desktop config registration (`get_claude_config_path`,
`update_claude_config`), template installation (`copy_template` over
`shutil.copytree` semantics), and the bootstrap orchestration
(`create_project`, `main`).

Python values are modelled as follows: JSON documents as an inductive
`Json` whose objects are insertion-ordered association lists (matching
`dict` insertion order, which `json.dumps` preserves); filesystem trees as
the inductive `FsTree`; paths as segment lists; every external effect
(subprocess results, prompt answers, confirmation answers, on-disk state)
as an explicit input consumed by the embedded function.  `sys.exit(1)` and
uncaught exceptions are distinct result constructors.

The file is organised as definitions first, then theorems.
-/

set_option linter.unusedVariables false

namespace CreateMcpServer

/-! ## Association lists (Python `dict` with insertion order) -/

/-- First-match lookup in an ordered association list.  Models reading
`d[k]` / `k in d` of a Python `dict`, whose keys are unique. -/
def lookupA {α : Type} : List (String × α) → String → Option α
  | [], _ => none
  | (k, v) :: rest, key => if k = key then some v else lookupA rest key

/-- Models Python `d[k] = v` on an insertion-ordered `dict`: an existing
key keeps its position and gets the new value, a new key is appended. -/
def setItem {α : Type} : List (String × α) → String → α → List (String × α)
  | [], key, v => [(key, v)]
  | (k, w) :: rest, key, v =>
    if k = key then (key, v) :: rest else (k, w) :: setItem rest key v

/-! ## JSON documents -/

/-- JSON values, as produced by `json.loads`.  Objects are
insertion-ordered association lists; numbers are restricted to integers
(no claim touches numeric JSON payloads). -/
inductive Json where
  | null : Json
  | bool : Bool → Json
  | num : Int → Json
  | str : String → Json
  | arr : List Json → Json
  | obj : List (String × Json) → Json

/-! ## Name validation (`check_package_name`, source lines 136–150) -/

/-- Models `str.startswith(("_", "-", "."))` for one-character patterns:
the first character is one of the given characters. -/
def startsWithAny (name : String) (cs : List Char) : Bool :=
  match name.data.head? with
  | some c => cs.contains c
  | none => false

/-- Models `str.endswith(("_", "-", "."))` for one-character patterns. -/
def endsWithAny (name : String) (cs : List Char) : Bool :=
  match name.data.getLast? with
  | some c => cs.contains c
  | none => false

/-- Python `c.isascii()`: the code point is below 128. -/
def pyIsAscii (c : Char) : Bool := c.toNat < 128

/-- Python `c.isalnum()` restricted to ASCII characters (the code always
conjoins it with `isascii`): an ASCII letter or digit.  On ASCII input
this coincides with Lean's `Char.isAlphanum`. -/
def pyIsAlnumAscii (c : Char) : Bool := c.isAlphanum

/--
`check_package_name` (source lines 136–150):

```python
if not name: return False
if " " in name: return False
if not all(c.isascii() and (c.isalnum() or c in "_-.") for c in name):
    return False
if name.startswith(("_", "-", ".")) or name.endswith(("_", "-", ".")):
    return False
return True
```

`" " in name` is substring containment of the one-character string `" "`,
i.e. membership of the space character.
-/
def check_package_name (name : String) : Bool :=
  if name = "" then false
  else if name.data.any (fun c => c = ' ') then false
  else if !(name.data.all fun c => pyIsAscii c && (pyIsAlnumAscii c || c = '_' || c = '-' || c = '.')) then false
  else if startsWithAny name ['_', '-', '.'] || endsWithAny name ['_', '-', '.'] then false
  else true

/-! ## Version gate (`check_uv_version`, source lines 13–28) -/

/-- The ASCII whitespace characters removed by Python's `str.strip()`
(the `uv --version` output is ASCII). -/
def pyIsSpaceChar (c : Char) : Bool :=
  c = ' ' || c = '\t' || c = '\n' || c = '\x0d' || c = '\x0b' || c = '\x0c'

/-- Python `str.strip()`: remove leading and trailing whitespace. -/
def pyStrip (s : String) : String :=
  String.mk (((s.data.dropWhile pyIsSpaceChar).reverse.dropWhile pyIsSpaceChar).reverse)

/-- Longest leading run of decimal digits (the greedy `\d+`). -/
def takeDigits : List Char → List Char × List Char
  | [] => ([], [])
  | c :: rest =>
    if c.isDigit then
      let p := takeDigits rest
      (c :: p.1, p.2)
    else ([], c :: rest)

/-- Numeric value of a digit run. -/
def digitsToNat (ds : List Char) : Nat :=
  ds.foldl (fun n c => n * 10 + (c.toNat - 48)) 0

/-- Matches `\d+\.\d+\.\d+` at the front of `cs` (trailing characters are
ignored, as with `re.match`): returns the matched group text and its three
numeric components. -/
def parse3 (cs : List Char) : Option (String × Nat × Nat × Nat) :=
  let p1 := takeDigits cs
  if p1.1 = [] then none
  else
    match p1.2 with
    | '.' :: r2 =>
      let p2 := takeDigits r2
      if p2.1 = [] then none
      else
        match p2.2 with
        | '.' :: r4 =>
          let p3 := takeDigits r4
          if p3.1 = [] then none
          else some (String.mk (p1.1 ++ '.' :: p2.1 ++ '.' :: p3.1),
                     digitsToNat p1.1, digitsToNat p2.1, digitsToNat p3.1)
        | _ => none
    | _ => none

/-- Models `re.match(r"uv (\d+\.\d+\.\d+)", version)`: the string must
start with `uv ` followed by three dot-separated digit runs; returns group
1 and its numeric value.  `re.match` anchors at the start only, so
trailing text is allowed. -/
def matchUvVersion (s : String) : Option (String × Nat × Nat × Nat) :=
  match s.data with
  | 'u' :: 'v' :: ' ' :: rest => parse3 rest
  | _ => none

/-- Models `packaging.version.parse` restricted to plain
`MAJOR.MINOR.PATCH` release triples (the program only parses
`MIN_UV_VERSION = "0.4.10"` and regex-extracted triples); any other input
is treated as a parse failure (`InvalidVersion`). -/
def parseTriple (s : String) : Option (Nat × Nat × Nat) :=
  match matchTripleAux s.data with
  | some t => some t
  | none => none
where
  matchTripleAux (cs : List Char) : Option (Nat × Nat × Nat) :=
    match parse3 cs with
    | some (g, t) => if String.mk cs = g then some t else none
    | none => none

/-- PEP 440 ordering on release triples: compare major, then minor, then
patch. -/
def versionGe (v r : Nat × Nat × Nat) : Bool :=
  if v.1 = r.1 then
    (if v.2.1 = r.2.1 then decide (r.2.2 ≤ v.2.2) else decide (r.2.1 < v.2.1))
  else decide (r.1 < v.1)

/-- Outcome of `subprocess.run(["uv", "--version"], ...)`, as observed by
`check_uv_version`. -/
inductive SubprocResult where
  | ok : String → SubprocResult
  | calledProcessError : SubprocResult
  | fileNotFound : SubprocResult

/-- How `check_uv_version` finishes: a returned value, `sys.exit(1)`, or
an exception that the function does not catch. -/
inductive CheckOutcome where
  | ret : Option String → CheckOutcome
  | fatal : CheckOutcome
  | exn : CheckOutcome
deriving DecidableEq

/-- Source line 11. -/
def MIN_UV_VERSION : String := "0.4.10"

/--
`check_uv_version` (source lines 13–28):

```python
try:
    result = subprocess.run(["uv", "--version"], capture_output=True, text=True, check=True)
    version = result.stdout.strip()
    match = re.match(r"uv (\d+\.\d+\.\d+)", version)
    if match:
        version_num = match.group(1)
        if parse(version_num) >= parse(required_version):
            return version
    return None
except subprocess.CalledProcessError:
    click.echo(...); sys.exit(1)
except FileNotFoundError:
    return None
```

The returned string on success is `version`, the whole stripped stdout.
`parse(version_num)` always succeeds because group 1 has the shape
`\d+\.\d+\.\d+`; `parse(required_version)` raising `InvalidVersion` would
escape the `try` (it is neither of the two caught exception types), which
is the `exn` outcome.
-/
def check_uv_version (required_version : String) (res : SubprocResult) : CheckOutcome :=
  match res with
  | .ok stdout =>
    match matchUvVersion (pyStrip stdout) with
    | some (_version_num, vt) =>
      match parseTriple required_version with
      | some rt => if versionGe vt rt then .ret (some (pyStrip stdout)) else .ret none
      | none => .exn
    | none => .ret none
  | .calledProcessError => .fatal
  | .fileNotFound => .ret none

/-! ## Filesystem paths

`pathlib.Path` values, as far as this program observes them: an
absolute/relative flag and the list of path segments. -/

structure PathM where
  absolute : Bool
  parts : List String
deriving DecidableEq

/-- Python `str(path)` (rendered with `/` separators). -/
def pathStr (p : PathM) : String :=
  (if p.absolute then "/" else "") ++ String.intercalate "/" p.parts

/-- Render a directory given as absolute segments (e.g. the Claude config
directory) as a string. -/
def pathJoin (segs : List String) : String :=
  "/" ++ String.intercalate "/" segs

/-- `path.relative_to(Path.cwd())` (source line 129): `cwd` is absolute,
so the call succeeds exactly when `path` is absolute and `cwd`'s segments
are a prefix of `path`'s; otherwise `ValueError` is raised (`none`). -/
def relativeTo (p : PathM) (cwd : List String) : Option (List String) :=
  if p.absolute && cwd.isPrefixOf p.parts then some (p.parts.drop cwd.length)
  else none

/-! ## Claude desktop config (`get_claude_config_path`,
`update_claude_config`, source lines 39–87) -/

/-- The value of `sys.platform` as far as lines 41–46 distinguish it. -/
inductive Platform where
  | win32 : Platform
  | darwin : Platform
  | other : Platform
deriving DecidableEq

/-- On-disk state of `claude_desktop_config.json`: either text that
`json.loads` rejects, or a parsed JSON document. -/
inductive FileContent where
  | malformed : FileContent
  | json : Json → FileContent

/-- The environment `update_claude_config` runs in: the platform,
`Path.home()`, whether the platform's Claude config directory exists,
the config file (`none` when missing), and whether
`config_file.write_text` raises an `OSError`. -/
structure ClaudeEnv where
  platform : Platform
  home : List String
  dirExists : Bool
  file : Option FileContent
  writeFails : Bool

/--
`get_claude_config_path` (source lines 39–50): a fixed roaming-app-data
subpath on win32, a fixed user-library subpath on darwin, unsupported
(`None`) elsewhere; `None` also when the directory does not exist.
-/
def get_claude_config_path (env : ClaudeEnv) : Option (List String) :=
  match env.platform with
  | .win32 =>
    if env.dirExists then some (env.home ++ ["AppData", "Roaming", "Claude"]) else none
  | .darwin =>
    if env.dirExists then some (env.home ++ ["Library", "Application Support", "Claude"]) else none
  | .other => none

/-- `has_claude_app` (source lines 52–53). -/
def has_claude_app (env : ClaudeEnv) : Bool :=
  (get_claude_config_path env).isSome

/-- Python `needle in hay` on strings: substring containment. -/
def strInStr (needle hay : String) : Bool :=
  decide (needle.data <:+: hay.data)

/-- Python's `in` operator applied to a JSON value (line 70:
`project_name in config["mcpServers"]`): key membership for a dict,
element equality for a list, substring for a string, and `TypeError`
(modelled as `.error`) for `int` / `bool` / `None`. -/
def pyInOp (j : Json) (s : String) : Except Unit Bool :=
  match j with
  | .obj fields => .ok (lookupA fields s).isSome
  | .arr xs => .ok (xs.any fun x => match x with | .str t => t = s | _ => false)
  | .str t => .ok (strInStr s t)
  | .num _ => .error ()
  | .bool _ => .error ()
  | .null => .error ()

def CLAUDE_CONFIG_FILENAME : String := "claude_desktop_config.json"

/-- Source line 71 (without the emoji marker). -/
def warnExistsMsg (name : String) : String :=
  "Warning: " ++ name ++ " already exists in Claude.app configuration"

/-- Source lines 72/82/86. -/
def locationMsg (config_file : List String) : String :=
  "Settings file location: " ++ pathJoin config_file

/-- Source line 85 (without the emoji marker). -/
def failMsg : String := "Failed to update Claude.app configuration"

/-- Source line 81 (without the emoji marker). -/
def addedMsg (name : String) : String :=
  "Added " ++ name ++ " to Claude.app configuration"

/-- The entry inserted at source lines 75–78:
`{"command": "uv", "args": ["--directory", str(project_path), "run", project_name]}`. -/
def serverEntry (project_name path_str : String) : Json :=
  .obj [("command", .str "uv"),
        ("args", .arr [.str "--directory", .str path_str, .str "run", .str project_name])]

/--
`update_claude_config` (source lines 55–87).  Returns the Python return
value, the resulting on-disk file state, and the printed messages.

The `try`/`except Exception` block is modelled branch by branch:
* `json.loads` raising on malformed text is the `.malformed` case;
* a top-level JSON value that is not an object always raises inside the
  `try` before the write — `"mcpServers" not in config` raises
  `TypeError` for `int`/`bool`/`None`, and for `str`/`list` the item
  assignment `config["mcpServers"] = {}` (or the later indexing
  `config["mcpServers"]`) raises `TypeError` — so it maps to the generic
  failure branch with the file untouched;
* a `config["mcpServers"]` value that is not an object either raises in
  `project_name in config["mcpServers"]` (via `pyInOp`, for
  `int`/`bool`/`None`) or, when the `in` test is false, raises at the
  item assignment `config["mcpServers"][project_name] = ...` — again the
  generic failure branch;
* `config_file.write_text` raising is the `writeFails` flag (the file is
  modelled as untouched in that case; no claim concerns partially
  written text).

The file is written only on the successful-insertion path (line 80).
-/
def update_claude_config (project_name : String) (project_path : PathM) (env : ClaudeEnv) :
    Bool × Option FileContent × List String :=
  match get_claude_config_path env with
  | none => (false, env.file, [])
  | some config_dir =>
    let config_file := config_dir ++ [CLAUDE_CONFIG_FILENAME]
    match env.file with
    | none => (false, env.file, [])
    | some .malformed => (false, env.file, [failMsg, locationMsg config_file])
    | some (.json (.obj config)) =>
      let config1 := if (lookupA config "mcpServers").isNone
        then setItem config "mcpServers" (.obj []) else config
      let mcp := (lookupA config1 "mcpServers").getD (.obj [])
      match pyInOp mcp project_name with
      | .error _ => (false, env.file, [failMsg, locationMsg config_file])
      | .ok true => (false, env.file, [warnExistsMsg project_name, locationMsg config_file])
      | .ok false =>
        match mcp with
        | .obj m =>
          let newConfig := Json.obj (setItem config1 "mcpServers"
            (.obj (setItem m project_name (serverEntry project_name (pathStr project_path)))))
          if env.writeFails then (false, env.file, [failMsg, locationMsg config_file])
          else (true, some (.json newConfig), [addedMsg project_name, locationMsg config_file])
        | _ => (false, env.file, [failMsg, locationMsg config_file])
    | some (.json _) => (false, env.file, [failMsg, locationMsg config_file])

/-! ## Filesystem trees and `shutil.copytree` (used by `copy_template`,
source lines 90–102) -/

/-- A filesystem subtree: a regular file with its text, or a directory
with its named entries in listing order. -/
inductive FsTree where
  | file : String → FsTree
  | dir : List (String × FsTree) → FsTree

/--
The entry loop of `shutil.copytree(src, dst, dirs_exist_ok=True)` applied
to source entries `ses` against destination entries `des`:

* a source *file* entry is copied with `copy2`; if the destination holds
  a directory of that name, `copy2` redirects into it (the file lands at
  `dst/name/name`, overwriting a file there, and raises
  `IsADirectoryError` if `dst/name/name` is itself a directory);
  otherwise the file is created or overwritten;
* a source *directory* entry first runs `os.makedirs(..., exist_ok=True)`
  — which raises `FileExistsError` if a non-directory of that name exists
  — then recurses;
* `copytree` aggregates entry errors and finally raises `shutil.Error`;
  since the caller exits on any exception and never observes the partial
  destination, the model may (and does) short-circuit at the first error.
-/
def mergeInto : List (String × FsTree) → List (String × FsTree) → Except Unit (List (String × FsTree))
  | [], des => .ok des
  | (name, .file c) :: rest, des =>
    match lookupA des name with
    | some (.dir ds) =>
      match lookupA ds name with
      | some (.dir _) => .error ()
      | _ => mergeInto rest (setItem des name (.dir (setItem ds name (.file c))))
    | _ => mergeInto rest (setItem des name (.file c))
  | (name, .dir cs) :: rest, des =>
    match lookupA des name with
    | some (.file _) => .error ()
    | some (.dir ds) =>
      match mergeInto cs ds with
      | .ok merged => mergeInto rest (setItem des name (.dir merged))
      | .error e => .error e
    | none =>
      match mergeInto cs [] with
      | .ok merged => mergeInto rest (setItem des name (.dir merged))
      | .error e => .error e

/-- `shutil.copytree(src, dst, dirs_exist_ok=True)`: merge a source
directory into a destination directory; anything else raises
(`NotADirectoryError` / `FileExistsError`). -/
def copyTree (src dst : FsTree) : Except Unit FsTree :=
  match src, dst with
  | .dir ses, .dir des => (mergeInto ses des).map FsTree.dir
  | _, _ => .error ()

/-- Entry names are pairwise distinct — true of any real directory
listing. -/
def nodupKeysB {α : Type} : List (String × α) → Bool
  | [] => true
  | (k, _) :: rest => !(rest.any fun q => q.1 = k) && nodupKeysB rest

/-- A sufficient compatibility condition for `mergeInto ses des` to
succeed: source file entries meet no directory of the same name in the
destination, and source directory entries meet either nothing or a
directory that is recursively compatible.  (Destination entries with
names the source does not use are unconstrained.) -/
def mergeableE : List (String × FsTree) → List (String × FsTree) → Bool
  | [], _ => true
  | (name, .file _) :: rest, des =>
    (match lookupA des name with
     | some (.dir _) => false
     | _ => true) && mergeableE rest des
  | (name, .dir cs) :: rest, des =>
    (match lookupA des name with
     | some (.file _) => false
     | some (.dir ds) => nodupKeysB cs && mergeableE cs ds
     | none => nodupKeysB cs && mergeableE cs []) && mergeableE rest des

/-- The search `next((path / "src").glob("*/__init__.py"), None)` (source
line 93): the first entry of `src` that is a directory containing an
entry named `__init__.py`; returns its name and entries.  Yields `none`
when `src` is missing, is not a directory, or holds no match. -/
def findInitIn : List (String × FsTree) → Option (String × List (String × FsTree))
  | [] => none
  | (n, .dir es) :: rest =>
    if (lookupA es "__init__.py").isSome then some (n, es) else findInitIn rest
  | _ :: rest => findInitIn rest

/-- `findInitIn` applied under `project/src`. -/
def findInitDir (project : FsTree) : Option (String × List (String × FsTree)) :=
  match project with
  | .dir pes =>
    match lookupA pes "src" with
    | some (.dir srcEs) => findInitIn srcEs
    | _ => none
  | _ => none

/-- How `copy_template` finishes: `sys.exit(1)` after an error message,
or the resulting project tree. -/
inductive CopyOutcome where
  | fatal : String → CopyOutcome
  | ok : FsTree → CopyOutcome

/-- Source line 95 (without the emoji marker). -/
def MISSING_INIT_MSG : String := "Could not find __init__.py in src directory"

/-- Source line 101 (without the emoji marker and exception text). -/
def COPY_FAIL_MSG : String := "Failed to copy template files"

/-- Rebuild the project tree after the located directory
`src/<dname>` has been replaced by `merged`. -/
def replaceSrcChild (project : FsTree) (dname : String) (merged : FsTree) : FsTree :=
  match project with
  | .dir pes =>
    match lookupA pes "src" with
    | some (.dir srcEs) => .dir (setItem pes "src" (.dir (setItem srcEs dname merged)))
    | _ => project
  | _ => project

/--
`copy_template` (source lines 90–102).  The Python signature is
`copy_template(path, name)`; `name` is unused there.  `template` is the
bundled `template` directory tree shipped next to the module and
`project` is the tree at `path`.

```python
src_dir = next((path / "src").glob("*/__init__.py"), None)
if src_dir is None:
    click.echo(...); sys.exit(1)
target_dir = src_dir.parent
try:
    shutil.copytree(template_dir, target_dir, dirs_exist_ok=True)
except Exception as e:
    click.echo(...); sys.exit(1)
```
-/
def copy_template (template project : FsTree) : CopyOutcome :=
  match findInitDir project with
  | none => .fatal MISSING_INIT_MSG
  | some (dname, des) =>
    match copyTree template (.dir des) with
    | .error _ => .fatal COPY_FAIL_MSG
    | .ok merged => .ok (replaceSrcChild project dname merged)

/-! ## Orchestration (`create_project`, `main`, source lines 104–200) -/

/-- Observable milestones of a run (error text aside). -/
inductive Ev where
  | mkdirDone : Ev
  | uvInitDone : Ev
  | uvAddDone : Ev
  | templateInstalled : Ev
  | claudeUpdated : Bool → Ev
  | summaryPrinted : Ev
deriving DecidableEq

/-- How `create_project` finishes: normal completion, `sys.exit(1)`, or
an uncaught exception. -/
inductive POutcome where
  | done : POutcome
  | fatal : POutcome
  | raised : POutcome
deriving DecidableEq

/-- External effects observed during `create_project`: whether
`path.mkdir` succeeds, whether the two `uv` subprocesses exit zero, the
bundled template tree, the tree at `path` after `uv init` scaffolds it,
the Claude environment, the answer to the Claude install confirmation,
and `Path.cwd()`. -/
structure CPWorld where
  mkdirOk : Bool
  initOk : Bool
  addOk : Bool
  template : FsTree
  projectTree : FsTree
  claudeEnv : ClaudeEnv
  confirmClaude : Bool
  cwd : List String

/--
`create_project` (source lines 104–133):

```python
path.mkdir(parents=True, exist_ok=True)           # OSError propagates
try: subprocess.run(["uv", "init", ...], cwd=path, check=True)
except CalledProcessError: echo; sys.exit(1)
try: subprocess.run(["uv", "add", "mcp"], cwd=path, check=True)
except CalledProcessError: echo; sys.exit(1)
copy_template(path, name)                          # sys.exit(1) inside on failure
if use_claude and has_claude_app() and click.confirm(...):
    update_claude_config(name, path)               # result ignored
relpath = path.relative_to(Path.cwd())             # ValueError propagates
click.echo(f"Created project {name} in {relpath}") # the success summary
```
-/
def create_project (path : PathM) (name : String) (use_claude : Bool) (w : CPWorld) :
    POutcome × List Ev :=
  if w.mkdirOk = false then (.raised, [])
  else if w.initOk = false then (.fatal, [.mkdirDone])
  else if w.addOk = false then (.fatal, [.mkdirDone, .uvInitDone])
  else
    match copy_template w.template w.projectTree with
    | .fatal _ => (.fatal, [.mkdirDone, .uvInitDone, .uvAddDone])
    | .ok _ =>
      let evs :=
        if use_claude && has_claude_app w.claudeEnv && w.confirmClaude then
          [Ev.mkdirDone, Ev.uvInitDone, Ev.uvAddDone, Ev.templateInstalled,
           Ev.claudeUpdated (update_claude_config name path w.claudeEnv).1]
        else [Ev.mkdirDone, Ev.uvInitDone, Ev.uvAddDone, Ev.templateInstalled]
      match relativeTo path w.cwd with
      | none => (.raised, evs)
      | some _ => (.done, evs ++ [Ev.summaryPrinted])

/-- How a run of the click command ends:

* `returned r` — the callback returned the integer `r`.  In click's
  standalone mode (click ≥ 7, and this project depends on click ≥ 8)
  `BaseCommand.main` **discards** the callback's return value and calls
  `ctx.exit()`, so the process exit status is 0 whatever `r` is;
* `sysExit c` — some step called `sys.exit(c)`;
* `aborted` — a prompt raised `click.Abort` (end of input); click prints
  `Aborted!` and exits with status 1;
* `exception` — an uncaught exception; the interpreter prints a
  traceback and exits with status 1. -/
inductive ExitKind where
  | returned : Nat → ExitKind
  | sysExit : Nat → ExitKind
  | aborted : ExitKind
  | exception : ExitKind
deriving DecidableEq

/-- Operating-system exit status of an `ExitKind` (see there: click's
standalone mode turns any callback return into status 0). -/
def osCode : ExitKind → Nat
  | .returned _ => 0
  | .sysExit c => c
  | .aborted => 1
  | .exception => 1

/-- `click.prompt(..., type=str)` against a queue of entered lines:
click re-prompts while the entered value is empty, and raises
`click.Abort` (caught by click, process exits 1) at end of input. -/
def promptNonEmpty : List String → Option (String × List String)
  | [] => none
  | s :: rest => if s = "" then promptNonEmpty rest else some (s, rest)

/-- Split a character list at a separator. -/
def splitOnChar (sep : Char) : List Char → List (List Char)
  | [] => [[]]
  | c :: rest =>
    if c = sep then [] :: splitOnChar sep rest
    else
      match splitOnChar sep rest with
      | [] => [[c]]
      | g :: gs => (c :: g) :: gs

/-- `Path(string)` for the interactive path prompt (source line 192). -/
def parsePath (s : String) : PathM :=
  ⟨(match s.data with | '/' :: _ => true | _ => false),
   ((splitOnChar '/' s.data).filter (fun g => g ≠ [])).map String.mk⟩

/-- External effects observed by `main` before `create_project`: the
`uv --version` subprocess result, the `--name` / `--path` /
`--claudeapp` options, the queue of prompt answers, the answer to the
"Is this correct?" confirmation, and the `create_project` world. -/
structure World where
  uvResult : SubprocResult
  cliName : Option String
  cliPath : Option PathM
  claudeapp : Bool
  promptQueue : List String
  confirmPath : Bool
  cp : CPWorld

/--
`main` (source lines 169–200), as invoked by click in standalone mode.
The callback's `return 0` / `return 1` values are modelled as
`ExitKind.returned`; click's standalone `BaseCommand.main` discards them
and calls `ctx.exit()`, so both end the process with status 0 (see
`osCode`).  A `click.Abort` raised by a prompt at end of input is caught
by click and exits with status 1 (`aborted`); `sys.exit(1)` inside a
step is `sysExit 1`; any other uncaught exception ends the interpreter
with a traceback and status 1 (`exception`).

Source structure:

```python
ensure_uv_installed()                    # sys.exit(1) if absent/too old
name = click.prompt("Project name (required)") if name is None else name
if name is None: return 1                # unreachable: prompt loops on empty
                                         # input and raises Abort at EOF,
                                         # it never returns None
if not check_package_name(name): return 1
project_path = (Path.cwd() / name) if path is None else path
if path is None:
    if not click.confirm("Is this correct?"):
        project_path = Path(click.prompt("Enter the correct path"))
if project_path is None: return 1        # unreachable: all three sources are non-None
create_project(project_path, name, claudeapp)
return 0
```

Because the two `return 1` guards on `None` are unreachable (a prompt
either yields a value or raises `Abort`), a failed prompt surfaces as
`aborted`, never as `returned 1` from those guards.
-/
def mainModel (w : World) : ExitKind × List Ev :=
  match check_uv_version MIN_UV_VERSION w.uvResult with
  | .fatal => (.sysExit 1, [])
  | .exn => (.exception, [])
  | .ret none => (.sysExit 1, [])
  | .ret (some _) =>
    match (match w.cliName with
           | some n => some (n, w.promptQueue)
           | none => promptNonEmpty w.promptQueue) with
    | none => (.aborted, [])
    | some (name, queue1) =>
      if check_package_name name = false then (.returned 1, [])
      else
        match (match w.cliPath with
               | some p => some (p, queue1)
               | none =>
                 if w.confirmPath then some (⟨true, w.cp.cwd ++ [name]⟩, queue1)
                 else
                   match promptNonEmpty queue1 with
                   | some (s, rest) => some (parsePath s, rest)
                   | none => none) with
        | none => (.aborted, [])
        | some (project_path, _) =>
          match create_project project_path name w.claudeapp w.cp with
          | (.done, evs) => (.returned 0, evs)
          | (.fatal, evs) => (.sysExit 1, evs)
          | (.raised, evs) => (.exception, evs)

end CreateMcpServer

/-! # Theorems -/

namespace CreateMcpServer

/-! ## Association-list lemmas -/

theorem lookupA_setItem_self {α : Type} (l : List (String × α)) (k : String) (v : α) :
    lookupA (setItem l k v) k = some v := by
  induction l with
  | nil => simp [setItem, lookupA]
  | cons hd tl ih =>
    obtain ⟨k', v'⟩ := hd
    by_cases h : k' = k <;> simp [setItem, lookupA, h, ih]

theorem lookupA_setItem_ne {α : Type} (l : List (String × α)) (k k' : String) (v : α)
    (h : k' ≠ k) : lookupA (setItem l k v) k' = lookupA l k' := by
  induction l with
  | nil => simp [setItem, lookupA, Ne.symm h]
  | cons hd tl ih =>
    obtain ⟨k₀, v₀⟩ := hd
    by_cases h0 : k₀ = k
    · subst h0
      simp [setItem, lookupA, Ne.symm h]
    · simp [setItem, lookupA, h0, ih]

theorem setItem_of_lookupA_none {α : Type} (l : List (String × α)) (k : String) (v : α)
    (h : lookupA l k = none) : setItem l k v = l ++ [(k, v)] := by
  induction l with
  | nil => simp [setItem]
  | cons hd tl ih =>
    obtain ⟨k₀, v₀⟩ := hd
    by_cases h0 : k₀ = k
    · simp [lookupA, h0] at h
    · simp [lookupA, h0] at h
      simp [setItem, h0, ih h]

/-! ## C1: name validation -/

theorem check_package_name_iff (name : String) :
    check_package_name name = true ↔
      (name ≠ "" ∧
       (∀ c ∈ name.data, ¬ c.isWhitespace) ∧
       (∀ c ∈ name.data, pyIsAscii c = true ∧
          (pyIsAlnumAscii c = true ∨ c = '_' ∨ c = '-' ∨ c = '.')) ∧
       (∀ c, name.data.head? = some c → c ≠ '_' ∧ c ≠ '-' ∧ c ≠ '.') ∧
       (∀ c, name.data.getLast? = some c → c ≠ '_' ∧ c ≠ '-' ∧ c ≠ '.')) := by
  constructor
  · intro h
    unfold check_package_name at h
    split at h
    · exact Bool.noConfusion h
    · split at h
      · exact Bool.noConfusion h
      · split at h
        · exact Bool.noConfusion h
        · split at h
          · exact Bool.noConfusion h
          · rename_i hne hsp hall hse
            simp only [Bool.not_eq_true', Bool.not_eq_false] at hall
            simp only [List.all_eq_true, Bool.and_eq_true, Bool.or_eq_true,
              decide_eq_true_eq] at hall
            simp only [Bool.or_eq_true, not_or, Bool.not_eq_true] at hse
            obtain ⟨hs, he⟩ := hse
            refine ⟨hne, ?_, ?_, ?_, ?_⟩
            · intro c hc hw
              have := hall c hc
              rcases this with ⟨ha, hb⟩
              have hw' : c = ' ' ∨ c = '\t' ∨ c = '\n' ∨ c = '\x0d' := by
                have := hw
                simp [Char.isWhitespace] at this
                tauto
              rcases hw' with h1 | h1 | h1 | h1 <;> subst h1 <;>
                simp_all [pyIsAlnumAscii, Char.isAlphanum, Char.isAlpha, Char.isDigit,
                  Char.isUpper, Char.isLower]
            · intro c hc
              have := hall c hc
              tauto
            · intro c hc
              unfold startsWithAny at hs
              rw [hc] at hs
              simp [List.contains] at hs
              tauto
            · intro c hc
              unfold endsWithAny at he
              rw [hc] at he
              simp [List.contains] at he
              tauto
  · rintro ⟨hne, hws, hall, hhead, hlast⟩
    unfold check_package_name
    rw [if_neg hne]
    have hnsp : name.data.any (fun c => decide (c = ' ')) = false := by
      simp only [List.any_eq_false, decide_eq_true_eq]
      intro c hc hcsp
      exact hws c hc (by subst hcsp; decide)
    rw [hnsp]
    have hall' : (name.data.all fun c =>
        pyIsAscii c && (pyIsAlnumAscii c || decide (c = '_') || decide (c = '-') || decide (c = '.'))) = true := by
      simp only [List.all_eq_true, Bool.and_eq_true, Bool.or_eq_true, decide_eq_true_eq]
      intro c hc
      have := hall c hc
      tauto
    rw [hall']
    have hsw : startsWithAny name ['_', '-', '.'] = false := by
      unfold startsWithAny
      cases hh : name.data.head? with
      | none => simp
      | some c =>
        have := hhead c hh
        simp [List.contains]
        tauto
    have hew : endsWithAny name ['_', '-', '.'] = false := by
      unfold endsWithAny
      cases hh : name.data.getLast? with
      | none => simp
      | some c =>
        have := hlast c hh
        simp [List.contains]
        tauto
    simp [hsw, hew]

/-- **C1.** `check_package_name` accepts exactly the non-empty,
whitespace-free strings of ASCII alphanumerics, underscores, hyphens and
periods that neither start nor end with an underscore, hyphen or period;
in particular `"my-project"` and `"my_project.v2"` are accepted while
`"-bad"`, `"bad-"`, `"my project"` and `""` are rejected. -/
theorem claim1_check_package_name :
    (∀ name : String,
      check_package_name name = true ↔
        (name ≠ "" ∧
         (∀ c ∈ name.data, ¬ c.isWhitespace) ∧
         (∀ c ∈ name.data, pyIsAscii c = true ∧
            (pyIsAlnumAscii c = true ∨ c = '_' ∨ c = '-' ∨ c = '.')) ∧
         (∀ c, name.data.head? = some c → c ≠ '_' ∧ c ≠ '-' ∧ c ≠ '.') ∧
         (∀ c, name.data.getLast? = some c → c ≠ '_' ∧ c ≠ '-' ∧ c ≠ '.'))) ∧
    check_package_name "my-project" = true ∧
    check_package_name "my_project.v2" = true ∧
    check_package_name "-bad" = false ∧
    check_package_name "bad-" = false ∧
    check_package_name "my project" = false ∧
    check_package_name "" = false := by
  refine ⟨check_package_name_iff, ?_, ?_, ?_, ?_, ?_, ?_⟩ <;> decide

/-! ## C4, C5: version gate -/

/-- **C4.** `check_uv_version` orders versions numerically by
major, then minor, then patch — not lexicographically: against the
minimum `"0.4.10"`, reported version `0.4.9` is rejected (`None`) while
`0.4.10` and `0.5.0` are returned. -/
theorem claim4_semver_ordering :
    check_uv_version "0.4.10" (.ok "uv 0.4.9") = .ret none ∧
    check_uv_version "0.4.10" (.ok "uv 0.4.10") = .ret (some "uv 0.4.10") ∧
    check_uv_version "0.4.10" (.ok "uv 0.5.0") = .ret (some "uv 0.5.0") ∧
    (∀ a b c d e f : Nat, versionGe (a, b, c) (d, e, f) = true ↔
      (d < a ∨ (a = d ∧ (e < b ∨ (b = e ∧ f ≤ c))))) := by
  refine ⟨by decide, by decide, by decide, ?_⟩
  intro a b c d e f
  unfold versionGe
  by_cases h1 : a = d <;> by_cases h2 : b = e <;> simp [h1, h2]

/-- **C5.** `check_uv_version` returns the (stripped) reported version
string when the output matches `uv <major>.<minor>.<patch>` and meets the
minimum; returns `None` when the version is below the minimum, when the
executable is not found and when the output does not match the pattern
(no exception); and terminates the process (`sys.exit(1)`) when the
subprocess exits non-zero for a reason other than not-found. -/
theorem claim5_error_handling :
    (∀ (req out vs : String) (vt rt : Nat × Nat × Nat),
        matchUvVersion (pyStrip out) = some (vs, vt) →
        parseTriple req = some rt →
        check_uv_version req (.ok out)
          = .ret (if versionGe vt rt then some (pyStrip out) else none)) ∧
    (∀ req out : String, matchUvVersion (pyStrip out) = none →
        check_uv_version req (.ok out) = .ret none) ∧
    (∀ req : String, check_uv_version req .fileNotFound = .ret none) ∧
    (∀ req : String, check_uv_version req .calledProcessError = .fatal) := by
  refine ⟨?_, ?_, fun req => rfl, fun req => rfl⟩
  · intro req out vs vt rt h1 h2
    unfold check_uv_version
    simp only [h1, h2]
    split <;> simp_all
  · intro req out h1
    unfold check_uv_version
    simp only [h1]

/-- Witness for C5 at concrete inputs. -/
theorem claim5_error_handling_witness :
    matchUvVersion (pyStrip "uv 0.4.10") = some ("0.4.10", 0, 4, 10) ∧
    parseTriple "0.4.10" = some (0, 4, 10) ∧
    check_uv_version "0.4.10" (.ok "uv 0.4.10") = .ret (if versionGe (0, 4, 10) (0, 4, 10) then some (pyStrip "uv 0.4.10") else none) ∧
    matchUvVersion (pyStrip "uv version unknown") = none ∧
    check_uv_version "0.4.10" (.ok "uv version unknown") = .ret none ∧
    check_uv_version "0.4.10" .fileNotFound = .ret none ∧
    check_uv_version "0.4.10" .calledProcessError = .fatal := by
  refine ⟨by decide, by decide, ?_, by decide, ?_, ?_, ?_⟩
  · exact claim5_error_handling.1 "0.4.10" "uv 0.4.10" "0.4.10" (0, 4, 10) (0, 4, 10)
      (by decide) (by decide)
  · exact claim5_error_handling.2.1 "0.4.10" "uv version unknown" (by decide)
  · exact claim5_error_handling.2.2.1 "0.4.10"
  · exact claim5_error_handling.2.2.2 "0.4.10"

/-! ## C2, C3: Claude config registration -/

theorem pathJoin_infix_locationMsg (cf : List String) :
    (pathJoin cf).data <:+: (locationMsg cf).data := by
  refine ⟨("Settings file location: ").data, [], ?_⟩
  simp [locationMsg, String.data_append]

theorem get_claude_config_path_file_irrel (env : ClaudeEnv) (f : Option FileContent) :
    get_claude_config_path { env with file := f } = get_claude_config_path env := rfl

/-- **C2.** Registering a project name already present as a key of
`mcpServers` returns `False`, prints a warning including the config
file's location, and leaves the on-disk file untouched; and after any
successful registration, registering the same name again returns `False`
and leaves the file unchanged (idempotence of the second call). -/
theorem claim2_collision_and_idempotence :
    (∀ (name : String) (p : PathM) (env : ClaudeEnv) (cd : List String)
        (config m : List (String × Json)),
        get_claude_config_path env = some cd →
        env.file = some (.json (.obj config)) →
        lookupA config "mcpServers" = some (.obj m) →
        (lookupA m name).isSome = true →
        update_claude_config name p env
          = (false, env.file,
             [warnExistsMsg name, locationMsg (cd ++ [CLAUDE_CONFIG_FILENAME])]) ∧
        (pathJoin (cd ++ [CLAUDE_CONFIG_FILENAME])).data <:+:
          (locationMsg (cd ++ [CLAUDE_CONFIG_FILENAME])).data) ∧
    (∀ (name : String) (p : PathM) (env : ClaudeEnv) (st : Option FileContent)
        (msgs : List String),
        update_claude_config name p env = (true, st, msgs) →
        (update_claude_config name p { env with file := st }).1 = false ∧
        (update_claude_config name p { env with file := st }).2.1 = st) := by
  constructor
  · intro name p env cd config m hcd hfile hmcp hmem
    refine ⟨?_, pathJoin_infix_locationMsg _⟩
    simp only [update_claude_config, hcd, hfile, hmcp, Option.isNone_some,
      Bool.false_eq_true, if_false, Option.getD_some, pyInOp, hmem]
  · intro name p env st msgs h
    simp only [update_claude_config] at h
    split at h
    · simp at h
    · rename_i cd hcd
      split at h
      · simp at h
      · simp at h
      · rename_i config hfile
        split at h
        · simp at h
        · simp at h
        · rename_i hfalse
          split at h
          · rename_i m hmcp
            split at h
            · simp at h
            · simp only [Prod.mk.injEq] at h
              obtain ⟨-, hst, -⟩ := h
              subst hst
              refine ⟨?_, ?_⟩ <;>
                simp only [update_claude_config, get_claude_config_path_file_irrel, hcd,
                  lookupA_setItem_self, Option.isNone_some, Bool.false_eq_true, if_false,
                  Option.getD_some, pyInOp, Option.isSome_some]
          · simp at h
      all_goals simp at h

/-- Witness for C2: a darwin environment whose config already maps
`"weather"`, and the second call after a successful insertion. -/
theorem claim2_collision_and_idempotence_witness :
    (update_claude_config "weather" ⟨true, ["home", "proj"]⟩
        ⟨.darwin, ["Users", "u"], true,
         some (.json (.obj [("mcpServers", .obj [("weather", .null)])])), false⟩
      = (false,
         some (.json (.obj [("mcpServers", .obj [("weather", .null)])])),
         [warnExistsMsg "weather",
          locationMsg (["Users", "u", "Library", "Application Support", "Claude"]
            ++ [CLAUDE_CONFIG_FILENAME])])) ∧
    ((update_claude_config "weather" ⟨true, ["home", "proj"]⟩
        ⟨.darwin, ["Users", "u"], true,
         some (.json (.obj [("mcpServers",
           .obj [("weather", serverEntry "weather" "/home/proj")])])), false⟩).1 = false ∧
     (update_claude_config "weather" ⟨true, ["home", "proj"]⟩
        ⟨.darwin, ["Users", "u"], true,
         some (.json (.obj [("mcpServers",
           .obj [("weather", serverEntry "weather" "/home/proj")])])), false⟩).2.1
       = some (.json (.obj [("mcpServers",
           .obj [("weather", serverEntry "weather" "/home/proj")])]))) := by
  constructor
  · exact (claim2_collision_and_idempotence.1 "weather" ⟨true, ["home", "proj"]⟩
      ⟨.darwin, ["Users", "u"], true,
       some (.json (.obj [("mcpServers", .obj [("weather", .null)])])), false⟩
      (["Users", "u"] ++ ["Library", "Application Support", "Claude"])
      [("mcpServers", .obj [("weather", .null)])] [("weather", .null)]
      rfl rfl rfl rfl).1
  · exact claim2_collision_and_idempotence.2 "weather" ⟨true, ["home", "proj"]⟩
      ⟨.darwin, ["Users", "u"], true, some (.json (.obj [])), false⟩
      (some (.json (.obj [("mcpServers",
        .obj [("weather", serverEntry "weather" "/home/proj")])])))
      [addedMsg "weather",
       locationMsg (["Users", "u"] ++ ["Library", "Application Support", "Claude"]
         ++ [CLAUDE_CONFIG_FILENAME])]
      rfl

/-- **C3.** For a well-formed JSON-object config whose `mcpServers`
mapping (absent meaning empty) does not contain the project name, a
successful registration writes back the same object except that
`mcpServers` gains exactly one entry, appended last, keyed by the project
name with value `{command: "uv", args: ["--directory", str(path), "run",
name]}`; every other top-level key is unchanged. -/
theorem claim3_register_roundtrip :
    ∀ (name : String) (p : PathM) (env : ClaudeEnv) (cd : List String)
      (config m : List (String × Json)),
      get_claude_config_path env = some cd →
      env.file = some (.json (.obj config)) →
      ((lookupA config "mcpServers" = none ∧ m = []) ∨
        (lookupA config "mcpServers" = some (.obj m) ∧ lookupA m name = none)) →
      env.writeFails = false →
      ∃ config2 : List (String × Json),
        update_claude_config name p env
          = (true, some (.json (.obj config2)),
             [addedMsg name, locationMsg (cd ++ [CLAUDE_CONFIG_FILENAME])]) ∧
        lookupA config2 "mcpServers"
          = some (.obj (m ++ [(name, serverEntry name (pathStr p))])) ∧
        (∀ k, k ≠ "mcpServers" → lookupA config2 k = lookupA config k) := by
  intro name p env cd config m hcd hfile hshape hwf
  rcases hshape with ⟨hnone, hm⟩ | ⟨hsome, habs⟩
  · subst hm
    refine ⟨setItem (setItem config "mcpServers" (.obj [])) "mcpServers"
      (.obj (setItem [] name (serverEntry name (pathStr p)))), ?_, ?_, ?_⟩
    · simp only [update_claude_config, hcd, hfile, hnone, Option.isNone_none, if_true,
        lookupA_setItem_self, Option.getD_some, pyInOp, lookupA, Option.isSome_none, hwf,
        Bool.false_eq_true, if_false]
    · rw [lookupA_setItem_self]
      simp [setItem]
    · intro k hk
      rw [lookupA_setItem_ne _ _ _ _ hk, lookupA_setItem_ne _ _ _ _ hk]
  · refine ⟨setItem config "mcpServers"
      (.obj (setItem m name (serverEntry name (pathStr p)))), ?_, ?_, ?_⟩
    · simp only [update_claude_config, hcd, hfile, hsome, Option.isNone_some,
        Bool.false_eq_true, if_false, Option.getD_some, pyInOp, habs, Option.isSome_none, hwf]
    · rw [lookupA_setItem_self, setItem_of_lookupA_none _ _ _ habs]
    · intro k hk
      rw [lookupA_setItem_ne _ _ _ _ hk]

/-- Witness for C3: registering `"weather"` into an empty config object
and into a config whose `mcpServers` holds one other server. -/
theorem claim3_register_roundtrip_witness :
    (update_claude_config "weather" ⟨true, ["home", "proj"]⟩
        ⟨.darwin, ["Users", "u"], true, some (.json (.obj [])), false⟩
      = (true,
         some (.json (.obj [("mcpServers",
           .obj [("weather", serverEntry "weather" "/home/proj")])])),
         [addedMsg "weather",
          locationMsg (["Users", "u", "Library", "Application Support", "Claude"]
            ++ [CLAUDE_CONFIG_FILENAME])])) ∧
    (∃ config2 : List (String × Json),
      update_claude_config "weather" ⟨true, ["home", "proj"]⟩
          ⟨.darwin, ["Users", "u"], true,
           some (.json (.obj [("theme", .str "dark"),
             ("mcpServers", .obj [("other", .null)])])), false⟩
        = (true, some (.json (.obj config2)),
           [addedMsg "weather",
            locationMsg ((["Users", "u"] ++ ["Library", "Application Support", "Claude"])
              ++ [CLAUDE_CONFIG_FILENAME])]) ∧
      lookupA config2 "mcpServers"
        = some (.obj ([("other", .null)]
            ++ [("weather", serverEntry "weather" (pathStr ⟨true, ["home", "proj"]⟩))])) ∧
      (∀ k, k ≠ "mcpServers" →
        lookupA config2 k
          = lookupA [("theme", Json.str "dark"),
              ("mcpServers", Json.obj [("other", Json.null)])] k)) := by
  constructor
  · rfl
  · exact claim3_register_roundtrip "weather" ⟨true, ["home", "proj"]⟩
      ⟨.darwin, ["Users", "u"], true,
       some (.json (.obj [("theme", .str "dark"),
         ("mcpServers", .obj [("other", .null)])])), false⟩
      (["Users", "u"] ++ ["Library", "Application Support", "Claude"])
      [("theme", .str "dark"), ("mcpServers", .obj [("other", .null)])]
      [("other", .null)]
      rfl rfl (Or.inr ⟨rfl, rfl⟩) rfl

/-! ## C6: template installation -/

theorem nodupKeysB_cons_iff {α : Type} (k : String) (v : α) (rest : List (String × α)) :
    nodupKeysB ((k, v) :: rest) = true ↔
      (rest.any fun q => decide (q.1 = k)) = false ∧ nodupKeysB rest = true := by
  simp [nodupKeysB]

theorem key_ne_of_anyKey_false {α : Type} {l : List (String × α)} {k : String}
    (h : (l.any fun q => decide (q.1 = k)) = false) {n : String} {t : α}
    (hm : (n, t) ∈ l) : n ≠ k := by
  simp only [List.any_eq_false, decide_eq_true_eq] at h
  exact h (n, t) hm

theorem lookupA_eq_none_of_anyKey_false {α : Type} {l : List (String × α)} {k : String}
    (h : (l.any fun q => decide (q.1 = k)) = false) : lookupA l k = none := by
  induction l with
  | nil => rfl
  | cons hd tl ih =>
    obtain ⟨k₀, v₀⟩ := hd
    simp only [List.any_cons, Bool.or_eq_false_iff, decide_eq_false_iff_not] at h
    simp only [lookupA, if_neg h.1, ih h.2]

theorem mergeableE_congr (ses des des' : List (String × FsTree))
    (h : ∀ n t, (n, t) ∈ ses → lookupA des' n = lookupA des n) :
    mergeableE ses des' = mergeableE ses des := by
  induction ses with
  | nil => simp [mergeableE]
  | cons hd rest ih =>
    obtain ⟨n, t⟩ := hd
    have hn : lookupA des' n = lookupA des n := h n t (List.mem_cons_self _ _)
    have hr : mergeableE rest des' = mergeableE rest des :=
      ih fun n' t' hm => h n' t' (List.mem_cons_of_mem _ hm)
    cases t with
    | file c => simp only [mergeableE, hn, hr]
    | dir cs => simp only [mergeableE, hn, hr]

theorem mergeInto_ok_aux :
    ∀ (n : Nat) (ses des : List (String × FsTree)), sizeOf ses ≤ n →
      nodupKeysB ses = true → mergeableE ses des = true →
      ∃ es, mergeInto ses des = .ok es ∧
        (∀ k c, lookupA ses k = some (.file c) → lookupA es k = some (.file c)) ∧
        (∀ k, lookupA ses k = none → lookupA es k = lookupA des k) := by
  intro n
  induction n with
  | zero =>
    intro ses des hsz hnd hmg
    match ses with
    | [] =>
      exact ⟨des, by simp [mergeInto], fun k c hk => by simp [lookupA] at hk,
        fun k hk => rfl⟩
    | e :: rest =>
      exfalso
      have : 0 < sizeOf (e :: rest) := by
        simp only [List.cons.sizeOf_spec]
        omega
      omega
  | succ n ih =>
    intro ses des hsz hnd hmg
    match ses with
    | [] =>
      exact ⟨des, by simp [mergeInto], fun k c hk => by simp [lookupA] at hk,
        fun k hk => rfl⟩
    | (name, .file c) :: rest =>
      obtain ⟨hany, hndr⟩ := (nodupKeysB_cons_iff name _ rest).mp hnd
      simp only [mergeableE, Bool.and_eq_true] at hmg
      obtain ⟨hd1, hmgr⟩ := hmg
      have hszr : sizeOf rest ≤ n := by
        simp only [List.cons.sizeOf_spec] at hsz
        omega
      have hcongr : mergeableE rest (setItem des name (.file c)) = mergeableE rest des :=
        mergeableE_congr _ _ _ fun n' t' hm =>
          lookupA_setItem_ne _ _ _ _ (key_ne_of_anyKey_false hany hm)
      cases hl : lookupA des name with
      | some t =>
        cases t with
        | dir ds => rw [hl] at hd1; simp at hd1
        | file c0 =>
          obtain ⟨es, hme, hfiles, hpres⟩ :=
            ih rest (setItem des name (.file c)) hszr hndr (hcongr.trans hmgr)
          refine ⟨es, ?_, ?_, ?_⟩
          · simp only [mergeInto, hl]
            exact hme
          · intro k c' hk
            simp only [lookupA] at hk
            by_cases hnk : name = k
            · subst hnk
              rw [if_pos rfl] at hk
              injection hk with hk2
              injection hk2 with hk3
              subst hk3
              rw [hpres name (lookupA_eq_none_of_anyKey_false hany),
                lookupA_setItem_self]
            · rw [if_neg hnk] at hk
              exact hfiles k c' hk
          · intro k hk
            simp only [lookupA] at hk
            by_cases hnk : name = k
            · rw [if_pos hnk] at hk; exact Option.noConfusion hk
            · rw [if_neg hnk] at hk
              rw [hpres k hk, lookupA_setItem_ne _ _ _ _ (Ne.symm hnk)]
      | none =>
        obtain ⟨es, hme, hfiles, hpres⟩ :=
          ih rest (setItem des name (.file c)) hszr hndr (hcongr.trans hmgr)
        refine ⟨es, ?_, ?_, ?_⟩
        · simp only [mergeInto, hl]
          exact hme
        · intro k c' hk
          simp only [lookupA] at hk
          by_cases hnk : name = k
          · subst hnk
            rw [if_pos rfl] at hk
            injection hk with hk2
            injection hk2 with hk3
            subst hk3
            rw [hpres name (lookupA_eq_none_of_anyKey_false hany),
              lookupA_setItem_self]
          · rw [if_neg hnk] at hk
            exact hfiles k c' hk
        · intro k hk
          simp only [lookupA] at hk
          by_cases hnk : name = k
          · rw [if_pos hnk] at hk; exact Option.noConfusion hk
          · rw [if_neg hnk] at hk
            rw [hpres k hk, lookupA_setItem_ne _ _ _ _ (Ne.symm hnk)]
    | (name, .dir cs) :: rest =>
      obtain ⟨hany, hndr⟩ := (nodupKeysB_cons_iff name _ rest).mp hnd
      simp only [mergeableE, Bool.and_eq_true] at hmg
      obtain ⟨hd1, hmgr⟩ := hmg
      have hszr : sizeOf rest ≤ n := by
        simp only [List.cons.sizeOf_spec] at hsz
        omega
      have hszc : sizeOf cs ≤ n := by
        simp only [List.cons.sizeOf_spec, Prod.mk.sizeOf_spec, FsTree.dir.sizeOf_spec] at hsz
        omega
      cases hl : lookupA des name with
      | some t =>
        cases t with
        | file c0 => rw [hl] at hd1; simp at hd1
        | dir ds =>
          rw [hl] at hd1
          simp only [Bool.and_eq_true] at hd1
          obtain ⟨hndc, hmgc⟩ := hd1
          obtain ⟨merged, hmc, -, -⟩ := ih cs ds hszc hndc hmgc
          have hcongr : mergeableE rest (setItem des name (.dir merged)) = mergeableE rest des :=
            mergeableE_congr _ _ _ fun n' t' hm =>
              lookupA_setItem_ne _ _ _ _ (key_ne_of_anyKey_false hany hm)
          obtain ⟨es, hme, hfiles, hpres⟩ :=
            ih rest (setItem des name (.dir merged)) hszr hndr (hcongr.trans hmgr)
          refine ⟨es, ?_, ?_, ?_⟩
          · simp only [mergeInto, hl, hmc]
            exact hme
          · intro k c' hk
            simp only [lookupA] at hk
            by_cases hnk : name = k
            · rw [if_pos hnk] at hk
              simp at hk
            · rw [if_neg hnk] at hk
              exact hfiles k c' hk
          · intro k hk
            simp only [lookupA] at hk
            by_cases hnk : name = k
            · rw [if_pos hnk] at hk; exact Option.noConfusion hk
            · rw [if_neg hnk] at hk
              rw [hpres k hk, lookupA_setItem_ne _ _ _ _ (Ne.symm hnk)]
      | none =>
        rw [hl] at hd1
        simp only [Bool.and_eq_true] at hd1
        obtain ⟨hndc, hmgc⟩ := hd1
        obtain ⟨merged, hmc, -, -⟩ := ih cs [] hszc hndc hmgc
        have hcongr : mergeableE rest (setItem des name (.dir merged)) = mergeableE rest des :=
          mergeableE_congr _ _ _ fun n' t' hm =>
            lookupA_setItem_ne _ _ _ _ (key_ne_of_anyKey_false hany hm)
        obtain ⟨es, hme, hfiles, hpres⟩ :=
          ih rest (setItem des name (.dir merged)) hszr hndr (hcongr.trans hmgr)
        refine ⟨es, ?_, ?_, ?_⟩
        · simp only [mergeInto, hl, hmc]
          exact hme
        · intro k c' hk
          simp only [lookupA] at hk
          by_cases hnk : name = k
          · rw [if_pos hnk] at hk
            simp at hk
          · rw [if_neg hnk] at hk
            exact hfiles k c' hk
        · intro k hk
          simp only [lookupA] at hk
          by_cases hnk : name = k
          · rw [if_pos hnk] at hk; exact Option.noConfusion hk
          · rw [if_neg hnk] at hk
            rw [hpres k hk, lookupA_setItem_ne _ _ _ _ (Ne.symm hnk)]

theorem mergeInto_ok (ses des : List (String × FsTree))
    (hnd : nodupKeysB ses = true) (hmg : mergeableE ses des = true) :
    ∃ es, mergeInto ses des = .ok es ∧
      (∀ k c, lookupA ses k = some (.file c) → lookupA es k = some (.file c)) ∧
      (∀ k, lookupA ses k = none → lookupA es k = lookupA des k) :=
  mergeInto_ok_aux (sizeOf ses) ses des (Nat.le_refl _) hnd hmg

/-- **C6.** `copy_template` searches for `src/*/<entry-file>` under the
project root: with no match it reports an error and exits; with a match
it merges the bundled template tree into the matched directory —
succeeding whenever the pre-existing structure has no file/directory type
conflict with the template, overwriting same-named files with the
template's and leaving unrelated entries untouched — and any copy
failure reports an error and exits. -/
theorem claim6_copy_template :
    (∀ tmpl proj : FsTree, findInitDir proj = none →
        copy_template tmpl proj = .fatal MISSING_INIT_MSG) ∧
    (∀ (tmpl proj : FsTree) (dname : String) (des : List (String × FsTree)),
        findInitDir proj = some (dname, des) →
        copyTree tmpl (.dir des) = .error () →
        copy_template tmpl proj = .fatal COPY_FAIL_MSG) ∧
    (∀ (ses : List (String × FsTree)) (proj : FsTree) (dname : String)
        (des : List (String × FsTree)),
        findInitDir proj = some (dname, des) →
        nodupKeysB ses = true → mergeableE ses des = true →
        ∃ es, copy_template (.dir ses) proj = .ok (replaceSrcChild proj dname (.dir es)) ∧
          (∀ k c, lookupA ses k = some (.file c) → lookupA es k = some (.file c)) ∧
          (∀ k, lookupA ses k = none → lookupA es k = lookupA des k)) := by
  refine ⟨?_, ?_, ?_⟩
  · intro tmpl proj h
    simp only [copy_template, h]
  · intro tmpl proj dname des h1 h2
    simp only [copy_template, h1, h2]
  · intro ses proj dname des h1 hnd hmg
    obtain ⟨es, hme, hfiles, hpres⟩ := mergeInto_ok ses des hnd hmg
    refine ⟨es, ?_, hfiles, hpres⟩
    simp only [copy_template, h1, copyTree, hme, Except.map]

/-- Witness for C6: a project without the expected scaffold, a type
conflict that makes the copy fail, and a successful merge that overwrites
`__init__.py` and keeps an unrelated file. -/
theorem claim6_copy_template_witness :
    (copy_template (.dir [("a", .file "x")]) (.dir [("README.md", .file "r")])
      = .fatal MISSING_INIT_MSG) ∧
    (copy_template (.dir [("x", .file "f")])
        (.dir [("src", .dir [("w", .dir [("__init__.py", .file ""),
          ("x", .dir [("x", .dir [])])])])])
      = .fatal COPY_FAIL_MSG) ∧
    (∃ es,
      copy_template (.dir [("__init__.py", .file "new"), ("server.py", .file "s")])
          (.dir [("src", .dir [("weather", .dir [("__init__.py", .file "old")])]),
            ("README.md", .file "r")])
        = .ok (replaceSrcChild
            (.dir [("src", .dir [("weather", .dir [("__init__.py", .file "old")])]),
              ("README.md", .file "r")])
            "weather" (.dir es)) ∧
      (∀ k c, lookupA [("__init__.py", FsTree.file "new"), ("server.py", FsTree.file "s")] k
          = some (.file c) → lookupA es k = some (.file c)) ∧
      (∀ k, lookupA [("__init__.py", FsTree.file "new"), ("server.py", FsTree.file "s")] k
          = none → lookupA es k = lookupA [("__init__.py", FsTree.file "old")] k)) := by
  refine ⟨?_, ?_, ?_⟩
  · exact claim6_copy_template.1 _ _ rfl
  · exact claim6_copy_template.2.1 _ _ "w"
      [("__init__.py", .file ""), ("x", .dir [("x", .dir [])])] rfl
      (by simp [copyTree, mergeInto, lookupA, Except.map])
  · exact claim6_copy_template.2.2
      [("__init__.py", .file "new"), ("server.py", .file "s")]
      (.dir [("src", .dir [("weather", .dir [("__init__.py", .file "old")])]),
        ("README.md", .file "r")])
      "weather" [("__init__.py", .file "old")] rfl (by decide)
      (by simp [mergeableE, lookupA])

/-! ## C7: registration is best-effort, never fatal -/

/-- **C7.** `update_claude_config` never aborts the bootstrap: it returns
`False` silently on an unsupported platform or missing config directory
(`get_claude_config_path = none`) and on a missing config file; it
catches every exception while parsing, mutating or writing (malformed
JSON, non-object document, write error), reports the file's location and
returns `False` with the file untouched; and `create_project` completes
(`done`) whatever the Claude environment is, whenever the steps before
and after registration succeed. -/
theorem claim7_register_never_fatal :
    (∀ (name : String) (p : PathM) (env : ClaudeEnv),
        get_claude_config_path env = none →
        update_claude_config name p env = (false, env.file, [])) ∧
    (∀ (name : String) (p : PathM) (env : ClaudeEnv) (cd : List String),
        get_claude_config_path env = some cd →
        env.file = none →
        update_claude_config name p env = (false, env.file, [])) ∧
    (∀ (name : String) (p : PathM) (env : ClaudeEnv) (cd : List String),
        get_claude_config_path env = some cd →
        env.file = some .malformed →
        update_claude_config name p env
          = (false, env.file, [failMsg, locationMsg (cd ++ [CLAUDE_CONFIG_FILENAME])])) ∧
    (∀ (name : String) (p : PathM) (env : ClaudeEnv) (cd : List String) (j : Json),
        get_claude_config_path env = some cd →
        env.file = some (.json j) →
        (∀ fields, j ≠ .obj fields) →
        update_claude_config name p env
          = (false, env.file, [failMsg, locationMsg (cd ++ [CLAUDE_CONFIG_FILENAME])])) ∧
    (∀ (name : String) (p : PathM) (env : ClaudeEnv),
        env.writeFails = true →
        (update_claude_config name p env).1 = false ∧
        (update_claude_config name p env).2.1 = env.file) ∧
    (∀ (path : PathM) (name : String) (uc : Bool) (w : CPWorld) (t : FsTree)
        (r : List String),
        w.mkdirOk = true → w.initOk = true → w.addOk = true →
        copy_template w.template w.projectTree = .ok t →
        relativeTo path w.cwd = some r →
        (create_project path name uc w).1 = .done) := by
  refine ⟨?_, ?_, ?_, ?_, ?_, ?_⟩
  · intro name p env h
    simp only [update_claude_config, h]
  · intro name p env cd h1 h2
    simp only [update_claude_config, h1, h2]
  · intro name p env cd h1 h2
    simp only [update_claude_config, h1, h2]
  · intro name p env cd j h1 h2 hno
    cases j with
    | obj fields => exact absurd rfl (hno fields)
    | null => simp only [update_claude_config, h1, h2]
    | bool b => simp only [update_claude_config, h1, h2]
    | num n => simp only [update_claude_config, h1, h2]
    | str s => simp only [update_claude_config, h1, h2]
    | arr xs => simp only [update_claude_config, h1, h2]
  · intro name p env hwf
    cases hcd : get_claude_config_path env with
    | none => simp [update_claude_config, hcd]
    | some cd =>
      cases hf : env.file with
      | none => simp [update_claude_config, hcd, hf]
      | some fc =>
        cases fc with
        | malformed => simp [update_claude_config, hcd, hf]
        | json j =>
          cases j with
          | obj config =>
            simp only [update_claude_config, hcd, hf, hwf]
            split
            · exact ⟨rfl, rfl⟩
            · exact ⟨rfl, rfl⟩
            · split
              · exact ⟨rfl, rfl⟩
              · exact ⟨rfl, rfl⟩
          | null => simp [update_claude_config, hcd, hf]
          | bool b => simp [update_claude_config, hcd, hf]
          | num n => simp [update_claude_config, hcd, hf]
          | str s => simp [update_claude_config, hcd, hf]
          | arr xs => simp [update_claude_config, hcd, hf]
  · intro path name uc w t r h1 h2 h3 h4 h5
    simp only [create_project, h1, h2, h3, h4, h5]
    simp

/-- Witness for C7 at concrete environments. -/
theorem claim7_register_never_fatal_witness :
    (update_claude_config "weather" ⟨true, ["home", "proj"]⟩
        ⟨.other, ["Users", "u"], true, some (.json (.obj [])), false⟩
      = (false, some (.json (.obj [])), [])) ∧
    (update_claude_config "weather" ⟨true, ["home", "proj"]⟩
        ⟨.darwin, ["Users", "u"], true, none, false⟩ = (false, none, [])) ∧
    (update_claude_config "weather" ⟨true, ["home", "proj"]⟩
        ⟨.darwin, ["Users", "u"], true, some .malformed, false⟩
      = (false, some .malformed,
         [failMsg, locationMsg ((["Users", "u"] ++ ["Library", "Application Support", "Claude"])
           ++ [CLAUDE_CONFIG_FILENAME])])) ∧
    (update_claude_config "weather" ⟨true, ["home", "proj"]⟩
        ⟨.darwin, ["Users", "u"], true, some (.json (.str "oops")), false⟩
      = (false, some (.json (.str "oops")),
         [failMsg, locationMsg ((["Users", "u"] ++ ["Library", "Application Support", "Claude"])
           ++ [CLAUDE_CONFIG_FILENAME])])) ∧
    ((update_claude_config "weather" ⟨true, ["home", "proj"]⟩
        ⟨.darwin, ["Users", "u"], true, some (.json (.obj [])), true⟩).1 = false ∧
     (update_claude_config "weather" ⟨true, ["home", "proj"]⟩
        ⟨.darwin, ["Users", "u"], true, some (.json (.obj [])), true⟩).2.1
       = some (.json (.obj []))) ∧
    ((create_project ⟨true, ["home", "weather"]⟩ "weather" true
        ⟨true, true, true, .dir [],
         .dir [("src", .dir [("w", .dir [("__init__.py", .file "")])])],
         ⟨.other, [], false, none, false⟩, false, ["home"]⟩).1 = .done) := by
  refine ⟨?_, ?_, ?_, ?_, ?_, ?_⟩
  · exact claim7_register_never_fatal.1 "weather" ⟨true, ["home", "proj"]⟩
      ⟨.other, ["Users", "u"], true, some (.json (.obj [])), false⟩ rfl
  · exact claim7_register_never_fatal.2.1 "weather" ⟨true, ["home", "proj"]⟩
      ⟨.darwin, ["Users", "u"], true, none, false⟩ _ rfl rfl
  · exact claim7_register_never_fatal.2.2.1 "weather" ⟨true, ["home", "proj"]⟩
      ⟨.darwin, ["Users", "u"], true, some .malformed, false⟩ _ rfl rfl
  · exact claim7_register_never_fatal.2.2.2.1 "weather" ⟨true, ["home", "proj"]⟩
      ⟨.darwin, ["Users", "u"], true, some (.json (.str "oops")), false⟩ _ (.str "oops")
      rfl rfl (fun fields h => Json.noConfusion h)
  · exact claim7_register_never_fatal.2.2.2.2.1 "weather" ⟨true, ["home", "proj"]⟩
      ⟨.darwin, ["Users", "u"], true, some (.json (.obj [])), true⟩ rfl
  · exact claim7_register_never_fatal.2.2.2.2.2 ⟨true, ["home", "weather"]⟩ "weather" true
      ⟨true, true, true, .dir [],
       .dir [("src", .dir [("w", .dir [("__init__.py", .file "")])])],
       ⟨.other, [], false, none, false⟩, false, ["home"]⟩
      (.dir [("src", .dir [("w", .dir [("__init__.py", .file "")])])])
      ["weather"] rfl rfl rfl
      (by simp [copy_template, findInitDir, findInitIn, lookupA, copyTree, mergeInto,
        Except.map, replaceSrcChild, setItem])
      rfl

/-! ## C8, C9, C10: orchestration -/

theorem create_project_done_iff (path : PathM) (name : String) (uc : Bool) (w : CPWorld) :
    (create_project path name uc w).1 = POutcome.done ↔
      Ev.summaryPrinted ∈ (create_project path name uc w).2 := by
  unfold create_project
  split
  · simp
  · split
    · simp
    · split
      · simp
      · split
        · simp
        · split
          · split <;> simp
          · split <;> simp

/-- **C8, code bug.** The claim — and the source's own intent: `main` is
annotated `-> int` and deliberately `return 1`s after each validation
error (lines 181, 184, 196) — says a validation abort exits with
status 1.  But click's standalone mode (click ≥ 7; this project depends
on click ≥ 8) discards the callback's return value and calls
`ctx.exit()`: with `--name "-bad"` the run prints the validation error
and the process exits with **status 0**, without reaching the summary —
falsifying the claimed iff.  In general, exit status 0 holds exactly on
the callback-return endings: the completed run (`return 0`, summary
printed) and the validation aborts (`return 1`, no summary); the
`sys.exit(1)` steps, prompt aborts and uncaught exceptions do exit 1. -/
theorem claim8_exit_code_bug :
    (mainModel ⟨.ok "uv 1.0.0", some "-bad", some ⟨true, ["tmp", "x"]⟩, false, [], true,
        ⟨true, true, true, .dir [], .dir [], ⟨.other, [], false, none, false⟩,
         false, ["tmp"]⟩⟩
      = (.returned 1, [])) ∧
    osCode (ExitKind.returned 1) = 0 ∧
    (∀ w : World,
      ((mainModel w).1 = .returned 0 ↔ Ev.summaryPrinted ∈ (mainModel w).2) ∧
      (osCode (mainModel w).1 = 0 ↔
        ((mainModel w).1 = .returned 0 ∨ (mainModel w).1 = .returned 1))) := by
  refine ⟨rfl, rfl, ?_⟩
  intro w
  unfold mainModel
  split
  · simp [osCode]
  · simp [osCode]
  · simp [osCode]
  · split
    · simp [osCode]
    · split
      · simp [osCode]
      · split
        · simp [osCode]
        · split
          · rename_i evs hcp
            have h := (create_project_done_iff _ _ _ _).mp (by rw [hcp])
            rw [hcp] at h
            simp [osCode, h]
          · rename_i evs hcp
            have h : Ev.summaryPrinted ∉ evs := by
              intro hm
              have h2 := (create_project_done_iff _ _ _ _).mpr (by rw [hcp]; exact hm)
              rw [hcp] at h2
              exact absurd h2 (by simp)
            simp [osCode, h]
          · rename_i evs hcp
            have h : Ev.summaryPrinted ∉ evs := by
              intro hm
              have h2 := (create_project_done_iff _ _ _ _).mpr (by rw [hcp]; exact hm)
              rw [hcp] at h2
              exact absurd h2 (by simp)
            simp [osCode, h]

/-- **C9, counterexample.** The claim says the orchestrator re-prompts
until the validator accepts and "does not abort after a single rejected
interactive entry".  The code does not re-prompt: with no `--name` and a
prompt queue whose first entry is the invalid `"-bad"` while a valid
`"weather"` is still available, the run ends after the single rejected
entry — the callback returns 1 with nothing created and the second queue
entry never consumed — instead of prompting again. -/
theorem claim9_counterexample :
    promptNonEmpty ["-bad", "weather"] = some ("-bad", ["weather"]) ∧
    check_package_name "weather" = true ∧
    check_package_name "-bad" = false ∧
    mainModel ⟨.ok "uv 1.0.0", none, some ⟨true, ["tmp", "x"]⟩, false,
        ["-bad", "weather"], true,
        ⟨true, true, true, .dir [], .dir [], ⟨.other, [], false, none, false⟩,
         false, ["tmp"]⟩⟩
      = (.returned 1, []) := by
  refine ⟨rfl, by decide, by decide, rfl⟩

/-- **C9, amended.** When no project name is supplied on the command
line, the orchestrator prompts once: `click.prompt` itself re-asks only
while the entered line is empty and raises `Abort` at end of input
(click then exits the process with status 1); a single non-empty entry
rejected by the validator ends the run immediately — the callback
returns 1, which click's standalone mode discards, so the process exit
status is 0 — and the orchestrator never re-enters the name-provision
state. -/
theorem claim9_single_prompt_abort :
    (∀ (w : World) (v name : String) (rest : List String),
        check_uv_version MIN_UV_VERSION w.uvResult = .ret (some v) →
        w.cliName = none →
        promptNonEmpty w.promptQueue = some (name, rest) →
        check_package_name name = false →
        mainModel w = (.returned 1, []) ∧ osCode (mainModel w).1 = 0) ∧
    (∀ (w : World) (v : String),
        check_uv_version MIN_UV_VERSION w.uvResult = .ret (some v) →
        w.cliName = none →
        promptNonEmpty w.promptQueue = none →
        mainModel w = (.aborted, []) ∧ osCode (mainModel w).1 = 1) ∧
    (∀ q : List String, promptNonEmpty ("" :: q) = promptNonEmpty q) := by
  refine ⟨?_, ?_, ?_⟩
  · intro w v name rest h1 h2 h3 h4
    have he : mainModel w = (.returned 1, []) := by
      unfold mainModel
      simp only [h1, h2, h3, h4]
      simp
    exact ⟨he, by rw [he]; rfl⟩
  · intro w v h1 h2 h3
    have he : mainModel w = (.aborted, []) := by
      unfold mainModel
      simp only [h1, h2, h3]
    exact ⟨he, by rw [he]; rfl⟩
  · intro q
    simp [promptNonEmpty]

/-- Witness for C9's amended claim. -/
theorem claim9_single_prompt_abort_witness :
    (mainModel ⟨.ok "uv 1.0.0", none, some ⟨true, ["tmp", "x"]⟩, false,
        ["-bad", "weather"], true,
        ⟨true, true, true, .dir [], .dir [], ⟨.other, [], false, none, false⟩,
         false, ["tmp"]⟩⟩
      = (.returned 1, []) ∧
     osCode (mainModel ⟨.ok "uv 1.0.0", none, some ⟨true, ["tmp", "x"]⟩, false,
        ["-bad", "weather"], true,
        ⟨true, true, true, .dir [], .dir [], ⟨.other, [], false, none, false⟩,
         false, ["tmp"]⟩⟩).1 = 0) ∧
    (mainModel ⟨.ok "uv 1.0.0", none, some ⟨true, ["tmp", "x"]⟩, false, ["", ""], true,
        ⟨true, true, true, .dir [], .dir [], ⟨.other, [], false, none, false⟩,
         false, ["tmp"]⟩⟩
      = (.aborted, []) ∧
     osCode (mainModel ⟨.ok "uv 1.0.0", none, some ⟨true, ["tmp", "x"]⟩, false, ["", ""], true,
        ⟨true, true, true, .dir [], .dir [], ⟨.other, [], false, none, false⟩,
         false, ["tmp"]⟩⟩).1 = 1) ∧
    promptNonEmpty ["", "weather"] = promptNonEmpty ["weather"] := by
  refine ⟨?_, ?_, claim9_single_prompt_abort.2.2 ["weather"]⟩
  · exact claim9_single_prompt_abort.1 _ "uv 1.0.0" "-bad" ["weather"] rfl rfl rfl
      (by decide)
  · exact claim9_single_prompt_abort.2.1 _ "uv 1.0.0" rfl rfl rfl

/-- **C10.** When the resolved project path is not under the current
working directory, `create_project` raises an uncaught `ValueError` at
`path.relative_to(Path.cwd())` — after `uv init`, `uv add mcp` and the
template copy have all run — so the run ends abnormally and the success
summary is never printed. -/
theorem claim10_relative_path_crash :
    ∀ (path : PathM) (name : String) (uc : Bool) (w : CPWorld) (t : FsTree),
      w.mkdirOk = true → w.initOk = true → w.addOk = true →
      copy_template w.template w.projectTree = .ok t →
      relativeTo path w.cwd = none →
      ∃ evs, create_project path name uc w = (.raised, evs) ∧
        Ev.uvInitDone ∈ evs ∧ Ev.uvAddDone ∈ evs ∧ Ev.templateInstalled ∈ evs ∧
        Ev.summaryPrinted ∉ evs := by
  intro path name uc w t h1 h2 h3 h4 h5
  by_cases hc : (uc && has_claude_app w.claudeEnv && w.confirmClaude) = true
  · refine ⟨[Ev.mkdirDone, Ev.uvInitDone, Ev.uvAddDone, Ev.templateInstalled,
      Ev.claudeUpdated (update_claude_config name path w.claudeEnv).1], ?_, by simp,
      by simp, by simp, by simp⟩
    simp only [create_project, h1, h2, h3, h4, h5, hc]
    simp
  · refine ⟨[Ev.mkdirDone, Ev.uvInitDone, Ev.uvAddDone, Ev.templateInstalled], ?_, by simp,
      by simp, by simp, by simp⟩
    simp only [create_project, h1, h2, h3, h4, h5, hc]
    simp [hc]

/-- Witness for C10: an absolute `--path` outside the working
directory. -/
theorem claim10_relative_path_crash_witness :
    ∃ evs, create_project ⟨true, ["srv", "elsewhere"]⟩ "weather" true
        ⟨true, true, true, .dir [],
         .dir [("src", .dir [("w", .dir [("__init__.py", .file "")])])],
         ⟨.other, [], false, none, false⟩, false, ["home"]⟩
      = (.raised, evs) ∧
      Ev.uvInitDone ∈ evs ∧ Ev.uvAddDone ∈ evs ∧ Ev.templateInstalled ∈ evs ∧
      Ev.summaryPrinted ∉ evs :=
  claim10_relative_path_crash ⟨true, ["srv", "elsewhere"]⟩ "weather" true
    ⟨true, true, true, .dir [],
     .dir [("src", .dir [("w", .dir [("__init__.py", .file "")])])],
     ⟨.other, [], false, none, false⟩, false, ["home"]⟩
    (.dir [("src", .dir [("w", .dir [("__init__.py", .file "")])])])
    rfl rfl rfl
    (by simp [copy_template, findInitDir, findInitIn, lookupA, copyTree, mergeInto,
      Except.map, replaceSrcChild, setItem])
    rfl

end CreateMcpServer
